import Mathlib

/-!
# Verification of the EMOTISENSE emotion pipeline

A shallow embedding, over `ℚ`, of the core signal-processing functions of the
EMOTISENSE repository, together with theorems settling the specification
claims about them.

Embedded source code:
* `src/webcam/face_emotion.py` — the face-signal stabilizer
  (`_get_stable_emotions`, `_get_neutral_emotions`, `_select_best_face`,
  `_calculate_negative_score`);
* `src/fallback/rule_based.py` — the fallback signal generator
  (`generate_face_emotions` and its scenario switching);
* `src/utils.py` — `calculate_negative_score`,
  `calculate_session_quality_score`, `calculate_session_analytics`;
* `src/app.py` (`live_dashboard`, lines 240–328) — the per-tick
  screenshot-trigger state machine (STRESS / HAPPY / DISTRACTION / AUTO).

Python float arithmetic is modelled by exact rational arithmetic; `np.sin`
and `np.cos` are modelled by arbitrary rational-valued function parameters,
and `random.choice` by an explicit oracle of choices.
-/

/-- The closed 7-label emotion set (`EMOTIONS` in `src/config.py`). -/
inductive Emotion where
  | angry
  | disgust
  | fear
  | happy
  | sad
  | surprise
  | neutral
deriving DecidableEq, Repr

/-- An emotion-probability mapping: every one of the 7 labels carries a
rational value.  Models the Python label→probability dicts. -/
def EmotionVec : Type := Emotion → ℚ

/-- Sum of the values of all 7 labels of an emotion vector. -/
def sumVec (v : EmotionVec) : ℚ :=
  v .angry + v .disgust + v .fear + v .happy + v .sad + v .surprise + v .neutral

/-- A valid emotion vector: all 7 values non-negative and summing to 1. -/
def validEmotionVec (v : EmotionVec) : Prop :=
  (0 ≤ v .angry ∧ 0 ≤ v .disgust ∧ 0 ≤ v .fear ∧ 0 ≤ v .happy ∧
   0 ≤ v .sad ∧ 0 ≤ v .surprise ∧ 0 ≤ v .neutral) ∧ sumVec v = 1

instance (v : EmotionVec) : Decidable (validEmotionVec v) := by
  unfold validEmotionVec; infer_instance

/-- Appending to a `collections.deque(maxlen := cap)`: the new element goes on
the right and the leftmost elements are evicted once the capacity is
exceeded. -/
def pushCap {α : Type} (cap : ℕ) (xs : List α) (x : α) : List α :=
  let ys := xs ++ [x]
  if cap < ys.length then ys.drop (ys.length - cap) else ys

/-- The fixed neutral prior of `FaceEmotionDetector._get_neutral_emotions`
(`src/webcam/face_emotion.py`, lines 207–217). -/
def get_neutral_emotions : EmotionVec := fun e =>
  match e with
  | .angry => 0.05
  | .disgust => 0.05
  | .fear => 0.05
  | .happy => 0.15
  | .sad => 0.05
  | .surprise => 0.05
  | .neutral => 0.60

/-- Mutable state of the stabilizer: the rolling raw-vector history
(`emotion_history`, a `deque(maxlen=5)`, oldest first) and the last
successfully stabilized vector (`last_valid_emotions`). -/
structure StabState where
  history : List EmotionVec
  lastValid : Option EmotionVec

/-- The stabilizer's initial state (`FaceEmotionDetector.__init__`). -/
def stabInit : StabState := ⟨[], none⟩

/-- The weight list actually used by `_get_stable_emotions` for a history of
`n` entries: the Python conditional expression
`[0.1,0.2,0.3,0.4] if len(values) >= 4 else [0.3,0.7] if len(values) >= 2
else [1.0]` followed by the slice `weights[-len(values):]`
(lines 197–198 of `src/webcam/face_emotion.py`). -/
def smoothingWeights (n : ℕ) : List ℚ :=
  let ws : List ℚ :=
    if 4 ≤ n then [0.1, 0.2, 0.3, 0.4]
    else if 2 ≤ n then [0.3, 0.7]
    else [1.0]
  ws.drop (ws.length - n)

/-- The per-label smoothed value of `_get_stable_emotions`: Python's
`sum(v * w for v, w in zip(values, weights)) / sum(weights)` — note that
`zip` truncates to the shorter list, while the denominator sums the whole
sliced weight list. -/
def weightedSmoothVals (values : List ℚ) : ℚ :=
  let ws := smoothingWeights values.length
  ((values.zip ws).map (fun p => p.1 * p.2)).sum / ws.sum

/-- The per-label smoothing loop of `_get_stable_emotions` (lines 193–199):
`smoothed[emotion] = sum(v * w ...) / sum(weights)` over the history. -/
def smoothedVec (hist : List EmotionVec) : EmotionVec := fun em =>
  weightedSmoothVals (hist.map (fun h => h em))

/-- Model of `FaceEmotionDetector._get_stable_emotions`
(`src/webcam/face_emotion.py`, lines 183–205).  `none` models a falsy
`current_emotions` argument; the returned pair is (output vector, new
state). -/
def get_stable_emotions (s : StabState) (raw : Option EmotionVec) :
    EmotionVec × StabState :=
  match raw with
  | none => (s.lastValid.getD get_neutral_emotions, s)
  | some cur =>
    if 3 ≤ (pushCap 5 s.history cur).length then
      (smoothedVec (pushCap 5 s.history cur),
       ⟨pushCap 5 s.history cur, some (smoothedVec (pushCap 5 s.history cur))⟩)
    else
      (cur, ⟨pushCap 5 s.history cur, some cur⟩)

/-- Feeding the same raw vector `v` to a fresh stabilizer `n` consecutive
times; the first component is the output of the latest call (for `n = 0`,
a placeholder). -/
def stabFeed (v : EmotionVec) : ℕ → EmotionVec × StabState
  | 0 => (v, stabInit)
  | n + 1 => get_stable_emotions (stabFeed v n).2 (some v)

/-- The smoothing rule exactly as the specification words it (spec §4.1 /
claim C1): a recency-biased weight table — 1 sample `[1.0]`, 2 samples
`[0.3, 0.7]`, 3 or more samples the most recent 4 with `[0.1,0.2,0.3,0.4]`
right-aligned to the most recent entries — normalized by the sum of the
weights actually used.  Stated over an oldest-first value list, for
comparison against `weightedSmoothVals`. -/
def spec_recency_avg (values : List ℚ) : ℚ :=
  let table : List ℚ :=
    if 3 ≤ values.length then [0.1, 0.2, 0.3, 0.4]
    else if 2 ≤ values.length then [0.3, 0.7]
    else [1.0]
  let used := values.drop (values.length - table.length)
  let ws := table.drop (table.length - used.length)
  ((used.zip ws).map (fun p => p.1 * p.2)).sum / ws.sum

/-- Raw vector putting all mass on `neutral`. -/
def vecPureNeutral : EmotionVec := fun e =>
  match e with
  | .neutral => 1
  | _ => 0

/-- Raw vector putting all mass on `happy`. -/
def vecPureHappy : EmotionVec := fun e =>
  match e with
  | .happy => 1
  | _ => 0

/-- Model of `FaceEmotionDetector._calculate_negative_score`
(`src/webcam/face_emotion.py`, lines 286–291):
`0.4*sad + 0.3*angry + 0.2*fear + 0.1*disgust`. -/
def detector_calculate_negative_score (e : EmotionVec) : ℚ :=
  0.4 * e .sad + 0.3 * e .angry + 0.2 * e .fear + 0.1 * e .disgust

/-- The list of labels `['angry', 'disgust', 'fear', 'sad']` bound to
`negative_emotions` in `src/utils.py`. -/
def negative_emotions : List Emotion := [.angry, .disgust, .fear, .sad]

/-- Model of `calculate_negative_score` (`src/utils.py`, lines 24–27): the plain,
unweighted sum of the four negative labels' values. -/
def calculate_negative_score (e : EmotionVec) : ℚ :=
  (negative_emotions.map e).sum

/-- Raw vector putting all mass on `sad`. -/
def vecPureSad : EmotionVec := fun e =>
  match e with
  | .sad => 1
  | _ => 0

/-- One record of the session time series as consumed by the analytics
functions of `src/utils.py`: a timestamp index plus the two fused scalars
they read (`df['stress']`, `df['engagement']`). -/
structure SessionRecord where
  timestamp : ℕ
  stress : ℚ
  engagement : ℚ
deriving DecidableEq

/-- Mean of a list of rationals (pandas `.mean()`), `0` on an empty list. -/
def listMean (xs : List ℚ) : ℚ := xs.sum / xs.length

/-- Sample variance with denominator `n - 1` (pandas `.var()`, `ddof=1`);
defined as `0` for fewer than two samples (where pandas would produce NaN —
that case is outside every claim considered here). -/
def listVar (xs : List ℚ) : ℚ :=
  if xs.length ≤ 1 then 0
  else (xs.map (fun x => (x - listMean xs) ^ 2)).sum / (xs.length - 1 : ℚ)

/-- The record at which `f` is largest, earliest first (pandas `.idxmax()`
keeps the first occurrence of the maximum). -/
def idxmaxBy (f : SessionRecord → ℚ) : List SessionRecord → Option SessionRecord
  | [] => none
  | r :: rs => some (rs.foldl (fun acc c => if f acc < f c then c else acc) r)

/-- The analytics record built by `calculate_session_analytics`
(`src/utils.py`, lines 64–95) for a non-empty series. -/
structure SessionAnalytics where
  most_stressed : Option SessionRecord
  most_engaged : Option SessionRecord
  stability_score : ℚ
  longest_stress_duration : ℚ
  critical_moments : List SessionRecord
deriving DecidableEq

/-- Model of `calculate_session_analytics` (`src/utils.py`, lines 64–95): an empty
series yields the empty dict (modelled as `none`); otherwise the
most-stressed and most-engaged records, the stability score
`max(0, 1 - var(stress))`, a constant longest-stress duration of 5 and an
empty critical-moments list. -/
def calculate_session_analytics (df : List SessionRecord) :
    Option SessionAnalytics :=
  if df = [] then none
  else some
    { most_stressed := idxmaxBy (fun r => r.stress) df
      most_engaged := idxmaxBy (fun r => r.engagement) df
      stability_score := max 0 (1 - listVar (df.map (fun r => r.stress)))
      longest_stress_duration := 5
      critical_moments := [] }

/-- Model of `calculate_session_quality_score` (`src/utils.py`, lines 125–141):
`0` on an empty series, otherwise the clamped blend
`min(100, max(0, (100 - avg_stress·100)·0.6 + avg_engagement·100·0.4))`
(the inner `max(0, 100 - avg_stress*100)` of the code included). -/
def calculate_session_quality_score (df : List SessionRecord) : ℚ :=
  if df = [] then 0
  else
    min 100 (max 0
      (max 0 (100 - listMean (df.map (fun r => r.stress)) * 100) * 0.6 +
       listMean (df.map (fun r => r.engagement)) * 100 * 0.4))

/-- An axis-aligned candidate face box `[x, y, w, h]` in frame pixel
coordinates. -/
structure FaceBox where
  x : ℚ
  y : ℚ
  w : ℚ
  h : ℚ
deriving DecidableEq

/-- The candidate filter inside `FaceEmotionDetector._select_best_face`
(`src/webcam/face_emotion.py`, lines 126–133): a face is kept when
`fw > 80 and fh > 80 and x > 0 and y > 0 and x + fw < w and y + fh < h and
fw < w * 0.8 and fh < h * 0.8`, where `h, w = frame_shape[:2]`. -/
def faceValid (frameH frameW : ℚ) (b : FaceBox) : Prop :=
  80 < b.w ∧ 80 < b.h ∧ 0 < b.x ∧ 0 < b.y ∧
  b.x + b.w < frameW ∧ b.y + b.h < frameH ∧
  b.w < frameW * 0.8 ∧ b.h < frameH * 0.8

instance (frameH frameW : ℚ) (b : FaceBox) :
    Decidable (faceValid frameH frameW b) := by
  unfold faceValid; infer_instance

/-- Python's `max(xs, key := f)`: the first element with the largest key
(later elements replace the current best only on a strictly larger key). -/
def bestBy (f : FaceBox → ℚ) : List FaceBox → Option FaceBox
  | [] => none
  | b :: bs => some (bs.foldl (fun acc c => if f acc < f c then c else acc) b)

/-- Python `int()` on a non-negative/any rational: truncation toward zero. -/
def pyInt (q : ℚ) : ℚ :=
  if 0 ≤ q then ((⌊q⌋ : ℤ) : ℚ) else ((⌈q⌉ : ℤ) : ℚ)

/-- The jitter smoothing of `_select_best_face` (lines 141–152): when the
new box's corner moved more than 50 px in either axis, blend it with the
previous box with weight `alpha = 0.7` toward the new one, truncating each
blended coordinate with `int()`. -/
def smoothFace (last best : FaceBox) : FaceBox :=
  if 50 < |best.x - last.x| ∨ 50 < |best.y - last.y| then
    ⟨pyInt (0.7 * best.x + (1 - 0.7) * last.x),
     pyInt (0.7 * best.y + (1 - 0.7) * last.y),
     pyInt (0.7 * best.w + (1 - 0.7) * last.w),
     pyInt (0.7 * best.h + (1 - 0.7) * last.h)⟩
  else best

/-- Applies the jitter smoothing against the most recent history entry when
the history (`face_history`, a `deque(maxlen=3)`) is non-empty. -/
def applySmoothing (hist : List FaceBox) (best : FaceBox) : FaceBox :=
  match hist.getLast? with
  | some last => smoothFace last best
  | none => best

/-- Model of `FaceEmotionDetector._select_best_face`
(`src/webcam/face_emotion.py`, lines 117–155): filter the candidates, take
the one of largest area, smooth it against the previous box and append the
result to the box history.  Returns (selected box, new history). -/
def select_best_face (faces : List FaceBox) (frameH frameW : ℚ)
    (hist : List FaceBox) : Option FaceBox × List FaceBox :=
  if faces = [] then (none, hist)
  else
    match bestBy (fun f => f.w * f.h)
        (faces.filter (fun b => decide (faceValid frameH frameW b))) with
    | none => (none, hist)
    | some best =>
      (some (applySmoothing hist best), pushCap 3 hist (applySmoothing hist best))

/-- The candidate-filter rule exactly as claim C6 words it: keep a box
unless it is smaller than the minimum size (80 px, the threshold the code
uses), or extends outside the frame bounds, or covers more than 80% of
either frame dimension. -/
def spec_face_keep (frameH frameW : ℚ) (b : FaceBox) : Prop :=
  ¬ (b.w < 80 ∨ b.h < 80) ∧
  ¬ (b.x < 0 ∨ b.y < 0 ∨ frameW < b.x + b.w ∨ frameH < b.y + b.h) ∧
  ¬ (frameW * 0.8 < b.w ∨ frameH * 0.8 < b.h)

/-- State of the per-tick screenshot-trigger machine of `app.py`
(`live_dashboard`, lines 244–250): the two consecutive-tick counters and
the per-type last-fire times (`last_screenshot_time.get(type, 0)` starts
at 0). -/
structure EventState where
  stressCounter : ℕ
  distractionCounter : ℕ
  lastStress : ℚ
  lastHappy : ℚ
  lastDistraction : ℚ
deriving DecidableEq

/-- The values read by one tick of the trigger block: the fused metrics
`stress`, `engagement`, `confidence`, the dominant face label
(`max(face_emotions, key=face_emotions.get)` at line 268, `none` when the
face mapping is falsy) and the current time. -/
structure TickInput where
  stress : ℚ
  engagement : ℚ
  confidence : ℚ
  dominant : Option Emotion
  now : ℚ

/-- The event types of the screenshot trigger (`app.py`, lines 294–306). -/
inductive EventType where
  | STRESS
  | HAPPY
  | DISTRACTION
  | AUTO
deriving DecidableEq, Repr

/-- A surfaced trigger event: its classified type and score. -/
structure TriggerEvent where
  etype : EventType
  score : ℚ
deriving DecidableEq

/-- The STRESS branch (`app.py`, lines 255–265): on `stress ≥ 0.85` the
counter increments and, once it is ≥ 3 with the 10-unit cooldown elapsed,
the trigger fires, the counter resets and the last-fire time updates;
on `stress < 0.85` the counter resets.  Returns
(new counter, new last-fire time, fired?). -/
def stressUpdate (s : EventState) (i : TickInput) : ℕ × ℚ × Bool :=
  if 0.85 ≤ i.stress then
    if 3 ≤ s.stressCounter + 1 ∧ 10 ≤ i.now - s.lastStress then (0, i.now, true)
    else (s.stressCounter + 1, s.lastStress, false)
  else (0, s.lastStress, false)

/-- The HAPPY branch (`app.py`, lines 267–273): level-triggered on
dominant label `happy` with confidence ≥ 0.75, gated only by the 10-unit
cooldown.  Returns (new last-fire time, fired?). -/
def happyUpdate (s : EventState) (i : TickInput) : ℚ × Bool :=
  if i.dominant = some Emotion.happy ∧ 0.75 ≤ i.confidence then
    if 10 ≤ i.now - s.lastHappy then (i.now, true) else (s.lastHappy, false)
  else (s.lastHappy, false)

/-- The DISTRACTION branch (`app.py`, lines 275–285): counting ticks with
`engagement ≤ 0.10`, firing at 5 with the 10-unit cooldown. -/
def distractionUpdate (s : EventState) (i : TickInput) : ℕ × ℚ × Bool :=
  if i.engagement ≤ 0.10 then
    if 5 ≤ s.distractionCounter + 1 ∧ 10 ≤ i.now - s.lastDistraction then
      (0, i.now, true)
    else (s.distractionCounter + 1, s.lastDistraction, false)
  else (0, s.lastDistraction, false)

/-- The event-type re-check of `app.py`, lines 294–306, evaluated against
the ALREADY-UPDATED counters `sc` (stress) and `dc` (distraction): STRESS,
then HAPPY, then DISTRACTION, else AUTO. -/
def classifyEvent (sc dc : ℕ) (i : TickInput) : TriggerEvent :=
  if sc = 0 ∧ 0.85 ≤ i.stress then ⟨.STRESS, i.stress⟩
  else if i.dominant = some Emotion.happy ∧ 0.75 ≤ i.confidence then
    ⟨.HAPPY, i.confidence⟩
  else if dc = 0 ∧ i.engagement ≤ 0.10 then ⟨.DISTRACTION, i.engagement⟩
  else ⟨.AUTO, i.stress⟩

/-- One tick of the trigger block (`app.py`, lines 252–306): the three
branches run in order, a single screenshot event is surfaced when any of
them fired (`screenshot_taken`), classified by `classifyEvent`; at most
one event per tick by construction. -/
def detectorStep (s : EventState) (i : TickInput) :
    Option TriggerEvent × EventState :=
  (if (stressUpdate s i).2.2 || (happyUpdate s i).2 || (distractionUpdate s i).2.2 then
     some (classifyEvent (stressUpdate s i).1 (distractionUpdate s i).1 i)
   else none,
   ⟨(stressUpdate s i).1, (distractionUpdate s i).1, (stressUpdate s i).2.1,
    (happyUpdate s i).1, (distractionUpdate s i).2.1⟩)

/-- Driving the trigger machine over a list of ticks; returns the per-tick
surfaced events and the final state. -/
def runDetector (s : EventState) :
    List TickInput → List (Option TriggerEvent) × EventState
  | [] => ([], s)
  | i :: rest =>
    ((detectorStep s i).1 :: (runDetector (detectorStep s i).2 rest).1,
     (runDetector (detectorStep s i).2 rest).2)

/-- The machine's state at session start: counters 0, no previous fire. -/
def detectorInit : EventState := ⟨0, 0, 0, 0, 0⟩

/-- The STRESS firing condition of claim C2: `stress ≥ 0.85`, the counter
reaching 3 (after this tick's increment) and the 10-unit cooldown
elapsed. -/
def stressFires (s : EventState) (i : TickInput) : Prop :=
  0.85 ≤ i.stress ∧ 3 ≤ s.stressCounter + 1 ∧ 10 ≤ i.now - s.lastStress

/-- A tick with `stress = 0.9` at time `t` whose other fields keep the
HAPPY and DISTRACTION branches quiescent. -/
def stressTick (t : ℚ) : TickInput := ⟨0.9, 0.5, 0.5, some .neutral, t⟩

/-- The scenarios of `FallbackEmotionGenerator`
(`src/fallback/rule_based.py`). -/
inductive Scen where
  | normal
  | happy
  | stressed
deriving DecidableEq, Repr

/-- Mutable state of `FallbackEmotionGenerator` used by
`generate_face_emotions`: the tick counter `time_factor`, the
`scenario_timer` and the current scenario. -/
structure GenState where
  timeFactor : ℕ
  scenTimer : ℕ
  scen : Scen
deriving DecidableEq

/-- A fresh generator (`FallbackEmotionGenerator.__init__`): counters 0,
scenario `normal`. -/
def genInit : GenState := ⟨0, 0, .normal⟩

/-- The unnormalized per-label weights of `generate_face_emotions`
(`src/fallback/rule_based.py`, lines 27–50): a scenario-specific baseline
plus a sinusoidal term, floored at 0.01 by `max`.  `np.sin` and `np.cos`
are modelled by the arbitrary rational-valued parameters `xsin` and
`xcos`; `tm` is `time_factor * 0.1`. -/
def fallbackRaw (xsin xcos : ℚ → ℚ) : Scen → ℚ → EmotionVec
  | .happy, tm => fun em =>
    match em with
    | .happy => max 0.01 (0.4 + 0.3 * xsin tm)
    | .neutral => max 0.01 (0.3 + 0.1 * xcos (tm * 0.7))
    | .surprise => max 0.01 (0.1 + 0.1 * xsin (tm * 1.3))
    | .sad => max 0.01 (0.05 + 0.05 * xsin (tm * 0.5))
    | .angry => max 0.01 (0.05 + 0.05 * xcos (tm * 0.3))
    | .fear => max 0.01 (0.03 + 0.02 * xsin (tm * 2))
    | .disgust => max 0.01 (0.02 + 0.03 * xcos (tm * 1.7))
  | .stressed, tm => fun em =>
    match em with
    | .angry => max 0.01 (0.3 + 0.2 * xsin (tm * 1.2))
    | .fear => max 0.01 (0.2 + 0.15 * xcos (tm * 0.8))
    | .sad => max 0.01 (0.15 + 0.1 * xsin (tm * 0.6))
    | .neutral => max 0.01 (0.2 + 0.1 * xcos tm)
    | .happy => max 0.01 (0.05 + 0.05 * xsin (tm * 0.3))
    | .surprise => max 0.01 (0.05 + 0.05 * xcos (tm * 1.5))
    | .disgust => max 0.01 (0.05 + 0.05 * xsin (tm * 2.1))
  | .normal, tm => fun em =>
    match em with
    | .neutral => max 0.01 (0.4 + 0.2 * xsin (tm * 0.5))
    | .happy => max 0.01 (0.25 + 0.15 * xcos (tm * 0.7))
    | .sad => max 0.01 (0.1 + 0.08 * xsin (tm * 0.3))
    | .surprise => max 0.01 (0.08 + 0.07 * xcos (tm * 1.1))
    | .angry => max 0.01 (0.07 + 0.06 * xsin (tm * 0.9))
    | .fear => max 0.01 (0.05 + 0.04 * xcos (tm * 1.3))
    | .disgust => max 0.01 (0.05 + 0.04 * xsin (tm * 1.7))

/-- The fixed distribution used by `generate_face_emotions` when the
weight total is not positive (lines 56–61). -/
def fallbackFixedDist : EmotionVec := fun em =>
  match em with
  | .neutral => 0.7
  | .happy => 0.1
  | .sad => 0.05
  | .angry => 0.05
  | .fear => 0.05
  | .surprise => 0.03
  | .disgust => 0.02

/-- The normalization of `generate_face_emotions` (lines 52–61):
divide every weight by the total when it is positive, else fall back to
the fixed distribution. -/
def normalizeEmotions (raw : EmotionVec) : EmotionVec :=
  if 0 < sumVec raw then fun em => raw em / sumVec raw else fallbackFixedDist

/-- One call of `FallbackEmotionGenerator.generate_face_emotions`
(`src/fallback/rule_based.py`, lines 17–72): increment `time_factor`,
build and normalize the scenario's sinusoidal weights, then increment
`scenario_timer` and — only when it EXCEEDS 20 — replace the scenario by
the oracle's pick (`random.choice(["normal", "happy", "stressed"])`) and
reset the timer. -/
def generate_face_emotions (xsin xcos : ℚ → ℚ) (pick : Scen) (s : GenState) :
    EmotionVec × GenState :=
  (normalizeEmotions
     (fallbackRaw xsin xcos s.scen (((s.timeFactor + 1 : ℕ) : ℚ) * 0.1)),
   if 20 < s.scenTimer + 1 then ⟨s.timeFactor + 1, 0, pick⟩
   else ⟨s.timeFactor + 1, s.scenTimer + 1, s.scen⟩)

/-- The generator's state after `n` calls from a fresh generator, with the
`n`-th call's random pick given by `picks n`. -/
def generatorRun (xsin xcos : ℚ → ℚ) (picks : ℕ → Scen) : ℕ → GenState
  | 0 => genInit
  | n + 1 =>
    (generate_face_emotions xsin xcos (picks n) (generatorRun xsin xcos picks n)).2

lemma pushCap_replicate {α : Type} (m : ℕ) (v : α) (hm : m ≤ 5) :
    pushCap 5 (List.replicate m v) v = List.replicate (min (m + 1) 5) v := by
  unfold pushCap
  rw [← List.replicate_succ']
  simp only [List.length_replicate]
  rcases Nat.lt_or_ge m 5 with h | h
  · rw [if_neg (by omega)]
    congr 1
    omega
  · have hm5 : m = 5 := le_antisymm hm h
    subst hm5
    rw [if_pos (by omega)]
    simp [List.drop_replicate]

lemma weightedSmooth_replicate (m : ℕ) (c : ℚ) (h3 : 3 ≤ m) (h5 : m ≤ 5) :
    weightedSmoothVals (List.replicate m c) = c := by
  interval_cases m <;>
    · simp only [weightedSmoothVals, smoothingWeights, List.replicate, List.length_cons,
        List.length_nil, List.zip_cons_cons, List.zip_nil_right, List.map_cons, List.map_nil,
        List.sum_cons, List.sum_nil, List.drop]
      norm_num
      ring_nf

lemma get_stable_emotions_history (s : StabState) (v : EmotionVec) :
    (get_stable_emotions s (some v)).2.history = pushCap 5 s.history v := by
  simp only [get_stable_emotions]
  split <;> rfl

lemma get_stable_emotions_const (s : StabState) (v : EmotionVec) (j : ℕ)
    (hs : s.history = List.replicate j v) (h2 : 2 ≤ j) (h5 : j ≤ 5) :
    (get_stable_emotions s (some v)).1 = v := by
  simp only [get_stable_emotions, hs, pushCap_replicate j v h5]
  rw [if_pos (by simp only [List.length_replicate]; omega)]
  funext em
  simp only [smoothedVec, List.map_replicate]
  exact weightedSmooth_replicate _ _ (by omega) (by omega)

lemma stabFeed_history (v : EmotionVec) : ∀ n : ℕ,
    (stabFeed v n).2.history = List.replicate (min n 5) v := by
  intro n
  induction n with
  | zero => rfl
  | succ k ih =>
    show (get_stable_emotions (stabFeed v k).2 (some v)).2.history = _
    rw [get_stable_emotions_history, ih, pushCap_replicate _ _ (by omega)]
    congr 1
    omega

/-- C1: the claim says that with at least 3 history entries the stabilizer
returns, per label, the recency-weighted average with the weight table
right-aligned to the most recent entries, the most recent entry getting the
largest weight.  Evaluating the embedded code at a concrete 3-entry history
(two all-neutral vectors, then an all-happy vector) refutes this: for the
`happy` label the code returns `0` — the Python `zip` pairs the weight list
`[0.3, 0.7]` (chosen because `len(values) >= 4` fails) with the two OLDEST
entries and drops the most recent one — while the claimed recency-weighted
average of the same history is `4/9`, with the most recent entry weighted
highest. -/
theorem c1_smoothing_drops_most_recent :
    (get_stable_emotions
      (get_stable_emotions
        (get_stable_emotions stabInit (some vecPureNeutral)).2
        (some vecPureNeutral)).2
      (some vecPureHappy)).1 .happy = 0 ∧
    spec_recency_avg
      [vecPureNeutral .happy, vecPureNeutral .happy, vecPureHappy .happy] = 4 / 9 ∧
    (0 : ℚ) ≠ 4 / 9 := by
  refine ⟨?_, ?_, by norm_num⟩
  · norm_num [get_stable_emotions, stabInit, pushCap, smoothedVec, weightedSmoothVals,
      smoothingWeights, vecPureNeutral, vecPureHappy]
  · norm_num [spec_recency_avg, vecPureNeutral, vecPureHappy]

/-- C4: on a null/absent raw input the stabilizer returns the last
successfully stabilized vector when one exists and otherwise exactly the
fixed neutral prior (neutral 0.60, happy 0.15, all the rest 0.05, summing
to 1), and the rolling history (indeed the whole state) is unchanged. -/
theorem c4_stabilize_null_fallback :
    (∀ s : StabState,
      (get_stable_emotions s none).2 = s ∧
      (∀ v, s.lastValid = some v → (get_stable_emotions s none).1 = v) ∧
      (s.lastValid = none → (get_stable_emotions s none).1 = get_neutral_emotions)) ∧
    get_neutral_emotions .neutral = 0.60 ∧
    get_neutral_emotions .happy = 0.15 ∧
    get_neutral_emotions .angry = 0.05 ∧
    get_neutral_emotions .disgust = 0.05 ∧
    get_neutral_emotions .fear = 0.05 ∧
    get_neutral_emotions .sad = 0.05 ∧
    get_neutral_emotions .surprise = 0.05 ∧
    sumVec get_neutral_emotions = 1 := by
  refine ⟨fun s => ⟨rfl, fun v hv => ?_, fun hv => ?_⟩,
    rfl, rfl, rfl, rfl, rfl, rfl, rfl, ?_⟩
  · simp [get_stable_emotions, hv]
  · simp [get_stable_emotions, hv]
  · norm_num [sumVec, get_neutral_emotions]

/-- Witness for C4: concrete instances of both fallback branches. -/
theorem c4_stabilize_null_fallback_witness :
    (get_stable_emotions ⟨[], some vecPureHappy⟩ none).1 = vecPureHappy ∧
    (get_stable_emotions stabInit none).1 = get_neutral_emotions :=
  ⟨(c4_stabilize_null_fallback.1 ⟨[], some vecPureHappy⟩).2.1 vecPureHappy rfl,
   (c4_stabilize_null_fallback.1 stabInit).2.2 rfl⟩

/-- C7: feeding the same valid raw emotion vector `n ≥ 4` consecutive times
to a fresh stabilizer makes the stabilized output exactly that vector (the
weighted average over a history of identical vectors is that vector). -/
theorem c7_repeated_input_converges (v : EmotionVec) (n : ℕ)
    (_hv : validEmotionVec v) (hn : 4 ≤ n) :
    (stabFeed v n).1 = v := by
  obtain ⟨k, rfl⟩ : ∃ k, n = k + 1 := ⟨n - 1, by omega⟩
  show (get_stable_emotions (stabFeed v k).2 (some v)).1 = v
  exact get_stable_emotions_const _ v (min k 5) (stabFeed_history v k)
    (by omega) (by omega)

/-- Witness for C7: the neutral prior, fed 4 times, is returned exactly. -/
theorem c7_repeated_input_converges_witness :
    validEmotionVec get_neutral_emotions ∧
    (stabFeed get_neutral_emotions 4).1 = get_neutral_emotions := by
  have hv : validEmotionVec get_neutral_emotions := by
    constructor
    · norm_num [get_neutral_emotions]
    · norm_num [sumVec, get_neutral_emotions]
  exact ⟨hv, c7_repeated_input_converges get_neutral_emotions 4 hv (by norm_num)⟩

/-- Counterexample to C5: on the vector with all mass on `sad`, the utility
module's `calculate_negative_score` returns `1`, not the claimed weighted
value `0.4·sad = 0.4` — so not every negative-score function in the code
computes the weighted formula. -/
theorem c5_counterexample_unweighted_sum :
    calculate_negative_score vecPureSad = 1 ∧
    detector_calculate_negative_score vecPureSad = 0.4 ∧
    (1 : ℚ) ≠ 0.4 := by
  refine ⟨?_, ?_, by norm_num⟩
  · norm_num [calculate_negative_score, negative_emotions, vecPureSad]
  · norm_num [detector_calculate_negative_score, vecPureSad]

/-- C5 (amended): the face detector's negative score is the weighted
combination `0.4·sad + 0.3·angry + 0.2·fear + 0.1·disgust`, while
`src/utils.py`'s `calculate_negative_score` returns the unweighted sum
`angry + disgust + fear + sad`. -/
theorem c5_negative_score_formulas (e : EmotionVec) :
    detector_calculate_negative_score e =
      0.4 * e .sad + 0.3 * e .angry + 0.2 * e .fear + 0.1 * e .disgust ∧
    calculate_negative_score e = e .angry + e .disgust + e .fear + e .sad := by
  constructor
  · rfl
  · simp [calculate_negative_score, negative_emotions]
    ring

/-- C9: on an empty session series the aggregation functions return
well-defined empty/zero results — the quality score is `0` and the
analytics result is the empty one — and, being total functions of the
series, they raise no error. -/
theorem c9_empty_series_defined :
    calculate_session_quality_score [] = 0 ∧
    calculate_session_analytics [] = none := by
  constructor <;> rfl

/-- Counterexample to C6: on a 640×480 frame, the box `(10, 10, 512, 100)`
covers exactly 80% (not more) of the frame width, is well inside the frame
and well above the minimum size, so the claim says it is kept — but the
code's strict comparison `fw < w * 0.8` discards it. -/
theorem c6_counterexample_exact_eighty_percent :
    spec_face_keep 480 640 ⟨10, 10, 512, 100⟩ ∧
    ¬ faceValid 480 640 ⟨10, 10, 512, 100⟩ ∧
    select_best_face [⟨10, 10, 512, 100⟩] 480 640 [] = (none, []) := by
  refine ⟨by norm_num [spec_face_keep], by norm_num [faceValid], ?_⟩
  have hv : ¬ faceValid 480 640 ⟨10, 10, 512, 100⟩ := by norm_num [faceValid]
  simp [select_best_face, List.filter_cons, hv, bestBy]

/-- C6 (amended): the filter keeps exactly the boxes that are strictly
larger than 80 px in both dimensions, strictly inside the frame (`x > 0`,
`y > 0`, right/bottom edges strictly inside), and strictly under 80% of
both frame dimensions; a box violating any of these — including
boundary-touching boxes, boxes of exactly the minimum size and boxes
covering exactly 80% — is discarded.  In particular, on a 640×480 frame a
90%-coverage candidate is rejected and a well-placed 50%-coverage candidate
is accepted. -/
theorem c6_candidate_filter :
    (∀ (frameH frameW : ℚ) (b : FaceBox) (hist : List FaceBox),
      (b.w ≤ 80 ∨ b.h ≤ 80 ∨ b.x ≤ 0 ∨ b.y ≤ 0 ∨ frameW ≤ b.x + b.w ∨
       frameH ≤ b.y + b.h ∨ frameW * 0.8 ≤ b.w ∨ frameH * 0.8 ≤ b.h) →
      select_best_face [b] frameH frameW hist = (none, hist)) ∧
    (∀ (frameH frameW : ℚ) (b : FaceBox),
      80 < b.w → 80 < b.h → 0 < b.x → 0 < b.y → b.x + b.w < frameW →
      b.y + b.h < frameH → b.w < frameW * 0.8 → b.h < frameH * 0.8 →
      select_best_face [b] frameH frameW [] = (some b, [b])) ∧
    select_best_face [⟨10, 10, 576, 432⟩] 480 640 [] = (none, []) ∧
    select_best_face [⟨100, 100, 320, 240⟩] 480 640 [] =
      (some ⟨100, 100, 320, 240⟩, [⟨100, 100, 320, 240⟩]) := by
  refine ⟨?_, ?_, ?_, ?_⟩
  · intro frameH frameW b hist hbad
    have hv : ¬ faceValid frameH frameW b := by
      rintro ⟨h1, h2, h3, h4, h5, h6, h7, h8⟩
      rcases hbad with h | h | h | h | h | h | h | h <;> linarith
    simp [select_best_face, List.filter_cons, hv, bestBy]
  · intro frameH frameW b h1 h2 h3 h4 h5 h6 h7 h8
    have hv : faceValid frameH frameW b := ⟨h1, h2, h3, h4, h5, h6, h7, h8⟩
    simp [select_best_face, List.filter_cons, hv, bestBy, applySmoothing, pushCap]
  · have hv : ¬ faceValid 480 640 ⟨10, 10, 576, 432⟩ := by norm_num [faceValid]
    simp [select_best_face, List.filter_cons, hv, bestBy]
  · have hv : faceValid 480 640 ⟨100, 100, 320, 240⟩ := by norm_num [faceValid]
    simp [select_best_face, List.filter_cons, hv, bestBy, applySmoothing, pushCap]

/-- Witness for C6: both quantified parts applied at a concrete frame and
box. -/
theorem c6_candidate_filter_witness :
    select_best_face [⟨0, 10, 100, 100⟩] 480 640 [] = (none, []) ∧
    select_best_face [⟨100, 100, 200, 200⟩] 480 640 [] =
      (some ⟨100, 100, 200, 200⟩, [⟨100, 100, 200, 200⟩]) :=
  ⟨c6_candidate_filter.1 480 640 ⟨0, 10, 100, 100⟩ []
      (Or.inr (Or.inr (Or.inl (by norm_num)))),
   c6_candidate_filter.2.1 480 640 ⟨100, 100, 200, 200⟩
      (by norm_num) (by norm_num) (by norm_num) (by norm_num)
      (by norm_num) (by norm_num) (by norm_num) (by norm_num)⟩

lemma stressUpdate_low (s : EventState) (i : TickInput) (h : i.stress < 0.85) :
    stressUpdate s i = (0, s.lastStress, false) := by
  unfold stressUpdate
  rw [if_neg (not_le.mpr h)]

lemma stressUpdate_noFire (s : EventState) (i : TickInput)
    (h1 : 0.85 ≤ i.stress) (h2 : ¬ stressFires s i) :
    stressUpdate s i = (s.stressCounter + 1, s.lastStress, false) := by
  unfold stressUpdate
  rw [if_pos h1, if_neg (fun hc => h2 ⟨h1, hc.1, hc.2⟩)]

lemma stressUpdate_fire (s : EventState) (i : TickInput) (h : stressFires s i) :
    stressUpdate s i = (0, i.now, true) := by
  unfold stressUpdate
  rw [if_pos h.1, if_pos ⟨h.2.1, h.2.2⟩]

lemma happyUpdate_fire (s : EventState) (i : TickInput)
    (h1 : i.dominant = some Emotion.happy ∧ 0.75 ≤ i.confidence)
    (h2 : 10 ≤ i.now - s.lastHappy) :
    happyUpdate s i = (i.now, true) := by
  unfold happyUpdate
  rw [if_pos h1, if_pos h2]

lemma classifyEvent_ne_stress (sc dc : ℕ) (i : TickInput)
    (h : ¬ (sc = 0 ∧ 0.85 ≤ i.stress)) :
    (classifyEvent sc dc i).etype ≠ EventType.STRESS := by
  unfold classifyEvent
  rw [if_neg h]
  split_ifs <;> exact fun hc => EventType.noConfusion hc

/-- C2: a tick with `stress ≥ 0.85` increments the STRESS counter (kept if
no fire) and a tick with `stress < 0.85` resets it; a STRESS event is
surfaced exactly when the incremented counter has reached 3 and ≥ 10
time-units have passed since STRESS last fired, with score the current
stress, after which the counter resets to 0 and the last-fire time becomes
the current time; and the three scenario runs: `stress = 0.9` for exactly
3 consecutive ticks (cooldown satisfied) surfaces exactly one STRESS event
with score 0.9, for only 2 ticks none, and a second qualifying run inside
the 10-unit cooldown surfaces nothing. -/
theorem c2_stress_event_machine :
    (∀ (s : EventState) (i : TickInput),
      (i.stress < 0.85 → (detectorStep s i).2.stressCounter = 0) ∧
      (0.85 ≤ i.stress → ¬ stressFires s i →
        (detectorStep s i).2.stressCounter = s.stressCounter + 1 ∧
        (detectorStep s i).2.lastStress = s.lastStress) ∧
      (stressFires s i →
        (detectorStep s i).1 = some ⟨.STRESS, i.stress⟩ ∧
        (detectorStep s i).2.stressCounter = 0 ∧
        (detectorStep s i).2.lastStress = i.now) ∧
      (¬ stressFires s i →
        ∀ ev, (detectorStep s i).1 = some ev → ev.etype ≠ EventType.STRESS)) ∧
    (runDetector detectorInit [stressTick 10, stressTick 11, stressTick 12]).1 =
      [none, none, some ⟨.STRESS, 0.9⟩] ∧
    (runDetector detectorInit [stressTick 10, stressTick 11]).1 = [none, none] ∧
    (runDetector detectorInit
      [stressTick 10, stressTick 11, stressTick 12,
       stressTick 13, stressTick 14, stressTick 15]).1 =
      [none, none, some ⟨.STRESS, 0.9⟩, none, none, none] := by
  refine ⟨fun s i => ⟨fun h => ?_, fun h1 h2 => ?_, fun h => ?_, fun h ev hev => ?_⟩,
    ?_, ?_, ?_⟩
  · simp [detectorStep, stressUpdate_low s i h]
  · constructor <;> simp [detectorStep, stressUpdate_noFire s i h1 h2]
  · have hsu := stressUpdate_fire s i h
    refine ⟨?_, by simp [detectorStep, hsu], by simp [detectorStep, hsu]⟩
    simp only [detectorStep, hsu, Bool.true_or, if_true]
    unfold classifyEvent
    rw [if_pos ⟨rfl, h.1⟩]
  · rcases lt_or_le i.stress 0.85 with hst | hst
    · have hsu := stressUpdate_low s i hst
      simp only [detectorStep, hsu, Bool.false_or] at hev
      split at hev
      · injection hev with hev'
        subst hev'
        exact classifyEvent_ne_stress _ _ i (fun hc => absurd hc.2 (not_le.mpr hst))
      · exact Option.noConfusion hev
    · have hsu := stressUpdate_noFire s i hst h
      simp only [detectorStep, hsu, Bool.false_or] at hev
      split at hev
      · injection hev with hev'
        subst hev'
        exact classifyEvent_ne_stress _ _ i (fun hc => Nat.succ_ne_zero _ hc.1)
      · exact Option.noConfusion hev
  · norm_num [runDetector, detectorStep, stressUpdate, happyUpdate, distractionUpdate,
      classifyEvent, detectorInit, stressTick]
  · norm_num [runDetector, detectorStep, stressUpdate, happyUpdate, distractionUpdate,
      classifyEvent, detectorInit, stressTick]
  · norm_num [runDetector, detectorStep, stressUpdate, happyUpdate, distractionUpdate,
      classifyEvent, detectorInit, stressTick]

/-- Witness for C2: the reset and firing clauses applied at concrete
states and ticks. -/
theorem c2_stress_event_machine_witness :
    (detectorStep ⟨2, 0, 0, 0, 0⟩ ⟨0.5, 0.5, 0.5, none, 10⟩).2.stressCounter = 0 ∧
    (detectorStep ⟨2, 0, 0, 0, 0⟩ ⟨0.9, 0.5, 0.5, none, 10⟩).1 =
      some ⟨.STRESS, 0.9⟩ :=
  ⟨(c2_stress_event_machine.1 ⟨2, 0, 0, 0, 0⟩ ⟨0.5, 0.5, 0.5, none, 10⟩).1
      (by norm_num),
   ((c2_stress_event_machine.1 ⟨2, 0, 0, 0, 0⟩ ⟨0.9, 0.5, 0.5, none, 10⟩).2.2.1
      (by norm_num [stressFires])).1⟩

/-- C10: on a tick where both the STRESS firing condition and the HAPPY
condition (dominant label `happy`, confidence ≥ 0.75, HAPPY cooldown
elapsed) hold, the single surfaced event is the STRESS one (the
classification re-check sees the reset stress counter first), yet the
HAPPY last-fire time is still advanced to the current time — the
suppressed HAPPY trigger consumes its cooldown without producing an
event.  At most one event per tick is surfaced by construction of
`detectorStep`. -/
theorem c10_stress_shadows_happy (s : EventState) (i : TickInput)
    (hstress : stressFires s i)
    (hdom : i.dominant = some Emotion.happy) (hconf : 0.75 ≤ i.confidence)
    (hcool : 10 ≤ i.now - s.lastHappy) :
    (detectorStep s i).1 = some ⟨.STRESS, i.stress⟩ ∧
    (detectorStep s i).2.lastHappy = i.now := by
  have hsu := stressUpdate_fire s i hstress
  have hhu := happyUpdate_fire s i ⟨hdom, hconf⟩ hcool
  refine ⟨?_, by simp [detectorStep, hhu]⟩
  simp only [detectorStep, hsu, Bool.true_or, if_true]
  unfold classifyEvent
  rw [if_pos ⟨rfl, hstress.1⟩]

/-- Witness for C10: a concrete tick satisfying both conditions at once. -/
theorem c10_stress_shadows_happy_witness :
    (detectorStep ⟨2, 0, 0, 0, 0⟩ ⟨0.9, 0.5, 0.8, some .happy, 20⟩).1 =
      some ⟨.STRESS, 0.9⟩ ∧
    (detectorStep ⟨2, 0, 0, 0, 0⟩ ⟨0.9, 0.5, 0.8, some .happy, 20⟩).2.lastHappy = 20 :=
  c10_stress_shadows_happy ⟨2, 0, 0, 0, 0⟩ ⟨0.9, 0.5, 0.8, some .happy, 20⟩
    (by norm_num [stressFires]) rfl (by norm_num) (by norm_num)

lemma fallbackRaw_ge (xsin xcos : ℚ → ℚ) (sc : Scen) (tm : ℚ) (em : Emotion) :
    (0.01 : ℚ) ≤ fallbackRaw xsin xcos sc tm em := by
  cases sc <;> cases em <;> exact le_max_left _ _

lemma sumVec_fallbackRaw_pos (xsin xcos : ℚ → ℚ) (sc : Scen) (tm : ℚ) :
    0 < sumVec (fallbackRaw xsin xcos sc tm) := by
  have h := fallbackRaw_ge xsin xcos sc tm
  have h1 := h .angry
  have h2 := h .disgust
  have h3 := h .fear
  have h4 := h .happy
  have h5 := h .sad
  have h6 := h .surprise
  have h7 := h .neutral
  unfold sumVec
  norm_num at h1 h2 h3 h4 h5 h6 h7 ⊢
  linarith

/-- C3: every face-emotion mapping produced by the fallback generator — in
every scenario, at every tick, for arbitrary sinusoid values — assigns to
each of the 7 labels a strictly positive value (every unnormalized weight
is floored at 0.01 before normalization), and the values sum to exactly 1
(hence to 1.0 within 1e-6). -/
theorem c3_fallback_emotions_normalized (xsin xcos : ℚ → ℚ) (pick : Scen)
    (s : GenState) :
    (∀ em, 0 < (generate_face_emotions xsin xcos pick s).1 em) ∧
    sumVec (generate_face_emotions xsin xcos pick s).1 = 1 := by
  have htot := sumVec_fallbackRaw_pos xsin xcos s.scen
    (((s.timeFactor + 1 : ℕ) : ℚ) * 0.1)
  have hout : (generate_face_emotions xsin xcos pick s).1 =
      fun em => fallbackRaw xsin xcos s.scen (((s.timeFactor + 1 : ℕ) : ℚ) * 0.1) em /
        sumVec (fallbackRaw xsin xcos s.scen (((s.timeFactor + 1 : ℕ) : ℚ) * 0.1)) := by
    show normalizeEmotions _ = _
    unfold normalizeEmotions
    rw [if_pos htot]
  constructor
  · intro em
    rw [hout]
    exact div_pos (lt_of_lt_of_le (by norm_num) (fallbackRaw_ge _ _ _ _ em)) htot
  · rw [hout]
    have hsum : sumVec (fun em =>
        fallbackRaw xsin xcos s.scen (((s.timeFactor + 1 : ℕ) : ℚ) * 0.1) em /
          sumVec (fallbackRaw xsin xcos s.scen (((s.timeFactor + 1 : ℕ) : ℚ) * 0.1))) =
        sumVec (fallbackRaw xsin xcos s.scen (((s.timeFactor + 1 : ℕ) : ℚ) * 0.1)) /
          sumVec (fallbackRaw xsin xcos s.scen (((s.timeFactor + 1 : ℕ) : ℚ) * 0.1)) := by
      unfold sumVec
      ring
    rw [hsum, div_self (ne_of_gt htot)]

lemma generatorRun_below_period (xsin xcos : ℚ → ℚ) (picks : ℕ → Scen)
    (n : ℕ) (hn : n ≤ 20) :
    (generatorRun xsin xcos picks n).scenTimer = n ∧
    (generatorRun xsin xcos picks n).scen = .normal := by
  induction n with
  | zero => exact ⟨rfl, rfl⟩
  | succ k ih =>
    obtain ⟨ht, hs⟩ := ih (by omega)
    show ((generate_face_emotions xsin xcos (picks k)
        (generatorRun xsin xcos picks k)).2.scenTimer = k + 1) ∧
      ((generate_face_emotions xsin xcos (picks k)
        (generatorRun xsin xcos picks k)).2.scen = .normal)
    unfold generate_face_emotions
    rw [ht, hs, if_neg (by omega)]
    exact ⟨rfl, rfl⟩

/-- C8 is refuted by the code: `scenario_timer` is re-picked only when the
incremented timer EXCEEDS 20, so a fresh generator keeps its scenario
unchanged through the 20th `generate_face_emotions` call — on which the
claim (and the code's own comment, `Change every 20 updates`) says a new
scenario is picked — and first re-picks it on the 21st call, for a period
of 21 calls; the random pick is modelled by the oracle `picks`. -/
theorem c8_scenario_changes_every_21_calls (xsin xcos : ℚ → ℚ)
    (picks : ℕ → Scen) :
    (∀ n, n ≤ 20 → (generatorRun xsin xcos picks n).scen = .normal) ∧
    (generatorRun xsin xcos picks 21).scen = picks 20 ∧
    (generatorRun xsin xcos picks 21).scenTimer = 0 := by
  have h20 := generatorRun_below_period xsin xcos picks 20 (by omega)
  refine ⟨fun n hn => (generatorRun_below_period xsin xcos picks n hn).2, ?_, ?_⟩
  · show (generate_face_emotions xsin xcos (picks 20)
      (generatorRun xsin xcos picks 20)).2.scen = picks 20
    unfold generate_face_emotions
    rw [h20.1, if_pos (by omega)]
  · show (generate_face_emotions xsin xcos (picks 20)
      (generatorRun xsin xcos picks 20)).2.scenTimer = 0
    unfold generate_face_emotions
    rw [h20.1, if_pos (by omega)]

/-- Witness for C8: with every random pick forced to `happy`, the fresh
generator's scenario is still `normal` after 20 calls and becomes the
picked `happy` on call 21. -/
theorem c8_scenario_changes_every_21_calls_witness :
    (generatorRun (fun _ => 0) (fun _ => 0) (fun _ => Scen.happy) 20).scen =
      Scen.normal ∧
    (generatorRun (fun _ => 0) (fun _ => 0) (fun _ => Scen.happy) 21).scen =
      Scen.happy :=
  ⟨(c8_scenario_changes_every_21_calls (fun _ => 0) (fun _ => 0)
      (fun _ => Scen.happy)).1 20 (by norm_num),
   (c8_scenario_changes_every_21_calls (fun _ => 0) (fun _ => 0)
      (fun _ => Scen.happy)).2.1⟩
